import Mathlib

/-!
Verification of `checksum.py`: a digest utility that fetches bytes from a
local file or an HTTP(S) URL, hashes them with a SHA-family algorithm chosen
by a numeric identifier, and optionally compares the hex digest against an
expected value.  The Python source is shallowly embedded below: bytes are
`List Nat` with every element `< 256`, machine words are `Nat` reduced
modulo `2 ^ bits`, and the I/O surface of `main` is modelled by an explicit
environment (which paths exist, what the network and the filesystem would
return) together with a trace of control-flow events.
-/

namespace Checksum

/-! ## Word arithmetic (Python integers truncated to 32/64-bit words) -/

/-- Truncate to a `bits`-bit word. -/
def wmod (bits x : Nat) : Nat := x % 2 ^ bits

/-- Left rotation of a `bits`-bit word `x` by `n` places (`0 < n < bits`,
`x < 2 ^ bits` in every use below). -/
def rotl (bits n x : Nat) : Nat :=
  wmod bits (x <<< n) ||| (x >>> (bits - n))

/-- Right rotation of a `bits`-bit word. -/
def rotr (bits n x : Nat) : Nat :=
  (x >>> n) ||| wmod bits (x <<< (bits - n))

/-- Bitwise complement of a `bits`-bit word. -/
def wnot (bits x : Nat) : Nat := x ^^^ (2 ^ bits - 1)

/-- Big-endian byte serialization of `x` on exactly `n` bytes. -/
def toBytesBE : Nat → Nat → List Nat
  | 0, _ => []
  | n + 1, x => toBytesBE n (x >>> 8) ++ [x % 256]

/-- Big-endian value of a byte list (`[a, b, c, d] ↦ a·2^24 + b·2^16 + ...`). -/
def beWord (l : List Nat) : Nat := l.foldl (fun acc b => acc * 256 + b) 0

/-! ## Hex rendering (models Python's `hexdigest`, lowercase) -/

/-- Hex character for a nibble: `0`-`9` then lowercase `a`-`f`. -/
def hexChar (n : Nat) : Char :=
  if n < 10 then Char.ofNat (48 + n) else Char.ofNat (87 + n)

/-- Two hex characters of one byte, high nibble first. -/
def hexByte (b : Nat) : List Char := [hexChar (b / 16), hexChar (b % 16)]

/-- Lowercase hex string of a byte list; models `.hexdigest()` applied to the
digest bytes. -/
def hexdigest (bytes : List Nat) : String :=
  String.mk (bytes.map hexByte).flatten

/-! ## Message padding and block decomposition (common to the SHA family).
`lenBytes` is 8 for the 512-bit-block algorithms (SHA-1/224/256) and 16 for
the 1024-bit-block ones (SHA-384/512). -/

/-- Merkle–Damgård padding: append `0x80`, zero bytes up to `blockLen -
lenBytes` modulo `blockLen`, then the bit length big-endian on `lenBytes`
bytes. -/
def shaPad (blockLen lenBytes : Nat) (msg : List Nat) : List Nat :=
  let l := msg.length
  let zeros := (2 * blockLen - 1 - lenBytes - l % blockLen) % blockLen
  msg ++ [0x80] ++ List.replicate zeros 0 ++
    toBytesBE lenBytes (wmod (8 * lenBytes) (8 * l))

/-- Split a list into consecutive chunks of size `n`; fuel-driven structural
recursion (the fuel is always instantiated with the list length, which
suffices whenever `0 < n`). -/
def chunksAux (n : Nat) : Nat → List α → List (List α)
  | 0, _ => []
  | _ + 1, [] => []
  | fuel + 1, l => l.take n :: chunksAux n fuel (l.drop n)

/-- Consecutive chunks of size `n` of a list. -/
def chunks (n : Nat) (l : List α) : List (List α) := chunksAux n l.length l

/-! ## SHA-1 (the algorithm behind `hashlib.sha1`) -/

/-- SHA-1 working state: five 32-bit words. -/
structure Sha1State where
  a : Nat
  b : Nat
  c : Nat
  d : Nat
  e : Nat

/-- SHA-1 initial state. -/
def sha1IV : Sha1State :=
  ⟨0x67452301, 0xEFCDAB89, 0x98BADCFE, 0x10325476, 0xC3D2E1F0⟩

/-- SHA-1 round function `f_t`. -/
def sha1F (t b c d : Nat) : Nat :=
  if t < 20 then (b &&& c) ||| (wnot 32 b &&& d)
  else if t < 40 then b ^^^ c ^^^ d
  else if t < 60 then (b &&& c) ||| (b &&& d) ||| (c &&& d)
  else b ^^^ c ^^^ d

/-- SHA-1 round constant `K_t`. -/
def sha1K (t : Nat) : Nat :=
  if t < 20 then 0x5A827999
  else if t < 40 then 0x6ED9EBA1
  else if t < 60 then 0x8F1BBCDC
  else 0xCA62C1D6

/-- Extend the 16 message-schedule words by `n` more words
(`w_t = rotl 1 (w_t3 ^^^ w_t8 ^^^ w_t14 ^^^ w_t16)`). -/
def sha1Extend (ws : List Nat) : Nat → List Nat
  | 0 => ws
  | n + 1 =>
    let l := sha1Extend ws n
    let k := l.length
    l ++ [rotl 32 1 (l.getD (k - 3) 0 ^^^ l.getD (k - 8) 0 ^^^
                     l.getD (k - 14) 0 ^^^ l.getD (k - 16) 0)]

/-- Full 80-word SHA-1 message schedule of one block. -/
def sha1Schedule (block : List Nat) : List Nat :=
  sha1Extend ((chunks 4 block).map beWord) 64

/-- One SHA-1 round. -/
def sha1Round (w : List Nat) (s : Sha1State) (t : Nat) : Sha1State :=
  let temp := wmod 32 (rotl 32 5 s.a + sha1F t s.b s.c s.d + s.e +
                       sha1K t + w.getD t 0)
  ⟨temp, s.a, rotl 32 30 s.b, s.c, s.d⟩

/-- SHA-1 compression of one 64-byte block into the chaining state. -/
def sha1Compress (h : Sha1State) (block : List Nat) : Sha1State :=
  let w := sha1Schedule block
  let s := (List.range 80).foldl (sha1Round w) h
  ⟨wmod 32 (h.a + s.a), wmod 32 (h.b + s.b), wmod 32 (h.c + s.c),
   wmod 32 (h.d + s.d), wmod 32 (h.e + s.e)⟩

/-- SHA-1 digest (20 bytes) of a byte sequence. -/
def sha1Bytes (msg : List Nat) : List Nat :=
  let f := (chunks 64 (shaPad 64 8 msg)).foldl sha1Compress sha1IV
  toBytesBE 4 f.a ++ toBytesBE 4 f.b ++ toBytesBE 4 f.c ++
    toBytesBE 4 f.d ++ toBytesBE 4 f.e

/-! ## SHA-2 family (the algorithms behind `hashlib.sha224/256/384/512`).
SHA-256 and SHA-512 share one compression structure; only the word size,
round count, round constants and rotation amounts differ, so the compression
is parameterized.  SHA-224 and SHA-384 are the same computations with
different initial values and a truncated output. -/

/-- SHA-2 working state: eight words. -/
structure Sha2State where
  a : Nat
  b : Nat
  c : Nat
  d : Nat
  e : Nat
  f : Nat
  g : Nat
  h : Nat

/-- Parameters distinguishing the SHA-256-style and SHA-512-style
compressions: word size in bits, number of rounds, round constants, and the
rotation/shift amounts of the four sigma functions. -/
structure Sha2Params where
  bits : Nat
  rounds : Nat
  K : List Nat
  s0r1 : Nat
  s0r2 : Nat
  s0sh : Nat
  s1r1 : Nat
  s1r2 : Nat
  s1sh : Nat
  S0r1 : Nat
  S0r2 : Nat
  S0r3 : Nat
  S1r1 : Nat
  S1r2 : Nat
  S1r3 : Nat

/-- Small sigma 0 (message schedule). -/
def sha2s0 (p : Sha2Params) (x : Nat) : Nat :=
  rotr p.bits p.s0r1 x ^^^ rotr p.bits p.s0r2 x ^^^ (x >>> p.s0sh)

/-- Small sigma 1 (message schedule). -/
def sha2s1 (p : Sha2Params) (x : Nat) : Nat :=
  rotr p.bits p.s1r1 x ^^^ rotr p.bits p.s1r2 x ^^^ (x >>> p.s1sh)

/-- Big Sigma 0 (round function). -/
def sha2S0 (p : Sha2Params) (x : Nat) : Nat :=
  rotr p.bits p.S0r1 x ^^^ rotr p.bits p.S0r2 x ^^^ rotr p.bits p.S0r3 x

/-- Big Sigma 1 (round function). -/
def sha2S1 (p : Sha2Params) (x : Nat) : Nat :=
  rotr p.bits p.S1r1 x ^^^ rotr p.bits p.S1r2 x ^^^ rotr p.bits p.S1r3 x

/-- Extend the 16 schedule words by `n` more
(`w_t = w_t16 + s0 w_t15 + w_t7 + s1 w_t2`). -/
def sha2Extend (p : Sha2Params) (ws : List Nat) : Nat → List Nat
  | 0 => ws
  | n + 1 =>
    let l := sha2Extend p ws n
    let k := l.length
    l ++ [wmod p.bits (l.getD (k - 16) 0 + sha2s0 p (l.getD (k - 15) 0) +
                       l.getD (k - 7) 0 + sha2s1 p (l.getD (k - 2) 0))]

/-- Full message schedule of one block. -/
def sha2Schedule (p : Sha2Params) (block : List Nat) : List Nat :=
  sha2Extend p ((chunks (p.bits / 8) block).map beWord) (p.rounds - 16)

/-- One SHA-2 round. -/
def sha2Round (p : Sha2Params) (w : List Nat) (s : Sha2State) (t : Nat) :
    Sha2State :=
  let ch := (s.e &&& s.f) ^^^ (wnot p.bits s.e &&& s.g)
  let temp1 := wmod p.bits (s.h + sha2S1 p s.e + ch + p.K.getD t 0 +
                            w.getD t 0)
  let maj := (s.a &&& s.b) ^^^ (s.a &&& s.c) ^^^ (s.b &&& s.c)
  let temp2 := wmod p.bits (sha2S0 p s.a + maj)
  ⟨wmod p.bits (temp1 + temp2), s.a, s.b, s.c,
   wmod p.bits (s.d + temp1), s.e, s.f, s.g⟩

/-- SHA-2 compression of one block into the chaining state. -/
def sha2Compress (p : Sha2Params) (h : Sha2State) (block : List Nat) :
    Sha2State :=
  let w := sha2Schedule p block
  let s := (List.range p.rounds).foldl (sha2Round p w) h
  ⟨wmod p.bits (h.a + s.a), wmod p.bits (h.b + s.b), wmod p.bits (h.c + s.c),
   wmod p.bits (h.d + s.d), wmod p.bits (h.e + s.e), wmod p.bits (h.f + s.f),
   wmod p.bits (h.g + s.g), wmod p.bits (h.h + s.h)⟩

/-- SHA-256-style parameters (32-bit words, 64 rounds). -/
def sha256Params : Sha2Params where
  bits := 32
  rounds := 64
  K := [
    0x428A2F98, 0x71374491, 0xB5C0FBCF, 0xE9B5DBA5,
    0x3956C25B, 0x59F111F1, 0x923F82A4, 0xAB1C5ED5,
    0xD807AA98, 0x12835B01, 0x243185BE, 0x550C7DC3,
    0x72BE5D74, 0x80DEB1FE, 0x9BDC06A7, 0xC19BF174,
    0xE49B69C1, 0xEFBE4786, 0x0FC19DC6, 0x240CA1CC,
    0x2DE92C6F, 0x4A7484AA, 0x5CB0A9DC, 0x76F988DA,
    0x983E5152, 0xA831C66D, 0xB00327C8, 0xBF597FC7,
    0xC6E00BF3, 0xD5A79147, 0x06CA6351, 0x14292967,
    0x27B70A85, 0x2E1B2138, 0x4D2C6DFC, 0x53380D13,
    0x650A7354, 0x766A0ABB, 0x81C2C92E, 0x92722C85,
    0xA2BFE8A1, 0xA81A664B, 0xC24B8B70, 0xC76C51A3,
    0xD192E819, 0xD6990624, 0xF40E3585, 0x106AA070,
    0x19A4C116, 0x1E376C08, 0x2748774C, 0x34B0BCB5,
    0x391C0CB3, 0x4ED8AA4A, 0x5B9CCA4F, 0x682E6FF3,
    0x748F82EE, 0x78A5636F, 0x84C87814, 0x8CC70208,
    0x90BEFFFA, 0xA4506CEB, 0xBEF9A3F7, 0xC67178F2]
  s0r1 := 7
  s0r2 := 18
  s0sh := 3
  s1r1 := 17
  s1r2 := 19
  s1sh := 10
  S0r1 := 2
  S0r2 := 13
  S0r3 := 22
  S1r1 := 6
  S1r2 := 11
  S1r3 := 25

/-- SHA-512-style parameters (64-bit words, 80 rounds). -/
def sha512Params : Sha2Params where
  bits := 64
  rounds := 80
  K := [
    0x428A2F98D728AE22, 0x7137449123EF65CD, 0xB5C0FBCFEC4D3B2F, 0xE9B5DBA58189DBBC,
    0x3956C25BF348B538, 0x59F111F1B605D019, 0x923F82A4AF194F9B, 0xAB1C5ED5DA6D8118,
    0xD807AA98A3030242, 0x12835B0145706FBE, 0x243185BE4EE4B28C, 0x550C7DC3D5FFB4E2,
    0x72BE5D74F27B896F, 0x80DEB1FE3B1696B1, 0x9BDC06A725C71235, 0xC19BF174CF692694,
    0xE49B69C19EF14AD2, 0xEFBE4786384F25E3, 0x0FC19DC68B8CD5B5, 0x240CA1CC77AC9C65,
    0x2DE92C6F592B0275, 0x4A7484AA6EA6E483, 0x5CB0A9DCBD41FBD4, 0x76F988DA831153B5,
    0x983E5152EE66DFAB, 0xA831C66D2DB43210, 0xB00327C898FB213F, 0xBF597FC7BEEF0EE4,
    0xC6E00BF33DA88FC2, 0xD5A79147930AA725, 0x06CA6351E003826F, 0x142929670A0E6E70,
    0x27B70A8546D22FFC, 0x2E1B21385C26C926, 0x4D2C6DFC5AC42AED, 0x53380D139D95B3DF,
    0x650A73548BAF63DE, 0x766A0ABB3C77B2A8, 0x81C2C92E47EDAEE6, 0x92722C851482353B,
    0xA2BFE8A14CF10364, 0xA81A664BBC423001, 0xC24B8B70D0F89791, 0xC76C51A30654BE30,
    0xD192E819D6EF5218, 0xD69906245565A910, 0xF40E35855771202A, 0x106AA07032BBD1B8,
    0x19A4C116B8D2D0C8, 0x1E376C085141AB53, 0x2748774CDF8EEB99, 0x34B0BCB5E19B48A8,
    0x391C0CB3C5C95A63, 0x4ED8AA4AE3418ACB, 0x5B9CCA4F7763E373, 0x682E6FF3D6B2B8A3,
    0x748F82EE5DEFB2FC, 0x78A5636F43172F60, 0x84C87814A1F0AB72, 0x8CC702081A6439EC,
    0x90BEFFFA23631E28, 0xA4506CEBDE82BDE9, 0xBEF9A3F7B2C67915, 0xC67178F2E372532B,
    0xCA273ECEEA26619C, 0xD186B8C721C0C207, 0xEADA7DD6CDE0EB1E, 0xF57D4F7FEE6ED178,
    0x06F067AA72176FBA, 0x0A637DC5A2C898A6, 0x113F9804BEF90DAE, 0x1B710B35131C471B,
    0x28DB77F523047D84, 0x32CAAB7B40C72493, 0x3C9EBE0A15C9BEBC, 0x431D67C49C100D4C,
    0x4CC5D4BECB3E42B6, 0x597F299CFC657E2A, 0x5FCB6FAB3AD6FAEC, 0x6C44198C4A475817]
  s0r1 := 1
  s0r2 := 8
  s0sh := 7
  s1r1 := 19
  s1r2 := 61
  s1sh := 6
  S0r1 := 28
  S0r2 := 34
  S0r3 := 39
  S1r1 := 14
  S1r2 := 18
  S1r3 := 41

/-- Initial state of SHA-256. -/
def sha256IV : Sha2State :=
  ⟨0x6A09E667, 0xBB67AE85, 0x3C6EF372, 0xA54FF53A,
   0x510E527F, 0x9B05688C, 0x1F83D9AB, 0x5BE0CD19⟩

/-- Initial state of SHA-224. -/
def sha224IV : Sha2State :=
  ⟨0xC1059ED8, 0x367CD507, 0x3070DD17, 0xF70E5939,
   0xFFC00B31, 0x68581511, 0x64F98FA7, 0xBEFA4FA4⟩

/-- Initial state of SHA-512. -/
def sha512IV : Sha2State :=
  ⟨0x6A09E667F3BCC908, 0xBB67AE8584CAA73B, 0x3C6EF372FE94F82B,
   0xA54FF53A5F1D36F1, 0x510E527FADE682D1, 0x9B05688C2B3E6C1F,
   0x1F83D9ABFB41BD6B, 0x5BE0CD19137E2179⟩

/-- Initial state of SHA-384. -/
def sha384IV : Sha2State :=
  ⟨0xCBBB9D5DC1059ED8, 0x629A292A367CD507, 0x9159015A3070DD17,
   0x152FECD8F70E5939, 0x67332667FFC00B31, 0x8EB44A8768581511,
   0xDB0C2E0D64F98FA7, 0x47B5481DBEFA4FA4⟩

/-- Final state of a SHA-2 computation: pad, split into blocks, compress. -/
def sha2Final (p : Sha2Params) (iv : Sha2State) (msg : List Nat) : Sha2State :=
  (chunks (2 * p.bits) (shaPad (2 * p.bits) (p.bits / 4) msg)).foldl
    (sha2Compress p) iv

/-- SHA-256 digest (32 bytes). -/
def sha256Bytes (msg : List Nat) : List Nat :=
  let f := sha2Final sha256Params sha256IV msg
  toBytesBE 4 f.a ++ toBytesBE 4 f.b ++ toBytesBE 4 f.c ++ toBytesBE 4 f.d ++
    toBytesBE 4 f.e ++ toBytesBE 4 f.f ++ toBytesBE 4 f.g ++ toBytesBE 4 f.h

/-- SHA-224 digest (28 bytes: the first seven state words). -/
def sha224Bytes (msg : List Nat) : List Nat :=
  let f := sha2Final sha256Params sha224IV msg
  toBytesBE 4 f.a ++ toBytesBE 4 f.b ++ toBytesBE 4 f.c ++ toBytesBE 4 f.d ++
    toBytesBE 4 f.e ++ toBytesBE 4 f.f ++ toBytesBE 4 f.g

/-- SHA-512 digest (64 bytes). -/
def sha512Bytes (msg : List Nat) : List Nat :=
  let f := sha2Final sha512Params sha512IV msg
  toBytesBE 8 f.a ++ toBytesBE 8 f.b ++ toBytesBE 8 f.c ++ toBytesBE 8 f.d ++
    toBytesBE 8 f.e ++ toBytesBE 8 f.f ++ toBytesBE 8 f.g ++ toBytesBE 8 f.h

/-- SHA-384 digest (48 bytes: the first six state words). -/
def sha384Bytes (msg : List Nat) : List Nat :=
  let f := sha2Final sha512Params sha384IV msg
  toBytesBE 8 f.a ++ toBytesBE 8 f.b ++ toBytesBE 8 f.c ++ toBytesBE 8 f.d ++
    toBytesBE 8 f.e ++ toBytesBE 8 f.f

/-! ## The program itself (`checksum.py`) -/

/-- Constant `KIBIBYTE: int = 1024`. -/
def KIBIBYTE : Nat := 1024

/-- Constant `MEBIBYTE: int = 1024 * KIBIBYTE`. -/
def MEBIBYTE : Nat := 1024 * KIBIBYTE

/-- Constant `DEFAULT_CAFILE_PATHS`, in source order. -/
def DEFAULT_CAFILE_PATHS : List String :=
  ["/etc/ssl/certs/cacert.pem", "/etc/ssl/cert.pem"]

/-- Constant `DEFAULT_USER_AGENT`, the browser-like User-Agent default. -/
def DEFAULT_USER_AGENT : String :=
  "Mozilla/5.0 (Macintosh; Intel Mac OS X 10_15_7) AppleWebKit/537.36 " ++
  "(KHTML, like Gecko) Chrome/85.0.4183.121 Safari/537.36"

/-- Function `get_alogirthm_function`: `getattr(hashlib, f"sha{algorithm_version}")`.
The attributes of `hashlib` whose name is `sha` followed by the decimal
rendering of an integer are exactly `sha1`, `sha224`, `sha256`, `sha384`
and `sha512` (the SHA-3 and SHAKE attributes contain an underscore or
letters, which no integer produces), so the dynamic lookup succeeds exactly
on those five identifiers and raises `AttributeError` otherwise, modelled
as `none`. -/
def get_alogirthm_function (algorithm_version : Int) :
    Option (List Nat → List Nat) :=
  if algorithm_version = 1 then some sha1Bytes
  else if algorithm_version = 224 then some sha224Bytes
  else if algorithm_version = 256 then some sha256Bytes
  else if algorithm_version = 384 then some sha384Bytes
  else if algorithm_version = 512 then some sha512Bytes
  else none

/-- Function `get_hashsum`: apply the selected hash to the bytes and render the
digest as lowercase hex; `none` models the propagated `AttributeError` of
an unsupported identifier. -/
def get_hashsum (algorithm_version : Int) (b : List Nat) : Option String :=
  (get_alogirthm_function algorithm_version).map fun f => hexdigest (f b)

/-- A readable byte source with a current position: models a binary file
object (or an HTTP response body) whose `read(n)` returns the next at most
`n` bytes and advances. -/
structure Readable where
  data : List Nat
  pos : Nat

/-- One `readable.read(chunk_size)` call: the next at most `chunk_size`
bytes and the advanced source. -/
def readChunk (r : Readable) (chunk_size : Nat) : List Nat × Readable :=
  let chunk := (r.data.drop r.pos).take chunk_size
  (chunk, ⟨r.data, r.pos + chunk.length⟩)

/-- Function `read_bytes`: the while loop accumulating `read(chunk_size)` chunks
until an empty read. -/
def read_bytes (r : Readable) (chunk_size : Nat) : List Nat :=
  let step := readChunk r chunk_size
  if h : step.1 = [] then []
  else
    step.1 ++ read_bytes step.2 chunk_size
termination_by r.data.length - r.pos
decreasing_by
  simp only [readChunk, step] at h ⊢
  have hlt : r.pos < r.data.length := by
    by_contra hge
    exact h (by simp [List.drop_eq_nil_of_le (Nat.le_of_not_lt hge)])
  have hpos : 0 < ((r.data.drop r.pos).take chunk_size).length :=
    List.length_pos.mpr h
  omega

/-- Function `read_file`: open the file (its content is `content`) and read it in
1-MiB chunks. -/
def read_file (content : List Nat) : List Nat :=
  read_bytes ⟨content, 0⟩ MEBIBYTE

/-- Function `read_request`: read the response body (`content`) in 4-KiB chunks. -/
def read_request (content : List Nat) : List Nat :=
  read_bytes ⟨content, 0⟩ (4 * KIBIBYTE)

/-- The loop of `get_default_cafile` over a path list: the first path that
exists, `none` when the loop falls through to `raise FileNotFoundError`. -/
def findCafile (pathExists : String → Bool) : List String → Option String
  | [] => none
  | p :: rest => if pathExists p then some p else findCafile pathExists rest

/-- Function `get_default_cafile`: first existing path of `DEFAULT_CAFILE_PATHS`,
`none` models the `FileNotFoundError("Cannot find any cafile")`. -/
def get_default_cafile (pathExists : String → Bool) : Option String :=
  findCafile pathExists DEFAULT_CAFILE_PATHS

/-- Python truthiness of `Optional[str]` as used in `if not cafile:`:
falsy exactly when the value is `None` or the empty string. -/
def pyFalsy : Option String → Bool
  | none => true
  | some s => s.isEmpty

/-- Python `repr` of a string containing no quote, backslash or control
character (as is the case for hex digests): the string in single quotes. -/
def pyReprPlain (s : String) : String := "'" ++ s ++ "'"

/-- The reporting tail of `main` (lines 119-131): printed lines and the
return code, given the computed digest and the optional `--hashsum`
value. -/
def report (target_hashsum : String) (hashsum : Option String) :
    List String × Int :=
  match hashsum with
  | none => (["Target hassum is " ++ pyReprPlain target_hashsum], 0)
  | some h => if target_hashsum = h then (["True"], 0) else (["False"], 1)

/-- Control-flow events of one `main` invocation, recorded in order: which
branch of the target classification ran, whether the default-cafile search
ran, and whether the network request was issued (`urlopen`). -/
inductive Event
  | urlBranch
  | fileBranch
  | defaultCafileSearch
  | networkRequest
deriving DecidableEq, Repr

/-- The errors `main` can propagate, of the embedding's concern. -/
inductive MainError
  | trustAnchorNotFound
  | ioError
  | unsupportedAlgorithm
deriving DecidableEq, Repr

/-- The environment of one invocation: which filesystem paths exist, the
body the network would return for the target URL, and the content of local
files (`none` = unreadable, modelling `IOError`). -/
structure Env where
  pathExists : String → Bool
  urlBody : List Nat
  fileContent : String → Option (List Nat)

/-- Python `target.startswith("http")` (line 103): the characters of `p`
are an initial segment of the characters of `s`.  Agrees with
`String.startsWith` and with Python's `str.startswith`. -/
def pyStartsWith (s p : String) : Bool := p.data.isPrefixOf s.data

/-- Function `main` after argument parsing (lines 103-131), given the parsed
arguments and the environment.  Returns the ordered event trace together
with either a propagated error or the printed lines and the return code.
The `user_agent` only shapes the request headers and has no further
observable effect, so it is threaded but unused. -/
def mainModel (target : String) (algorithm_version : Int)
    (user_agent : String) (cafile : Option String) (hashsum : Option String)
    (env : Env) : List Event × Except MainError (List String × Int) :=
  if pyStartsWith target "http" then
    -- headers/request construction (lines 104-105) performs no I/O
    if pyFalsy cafile then
      match get_default_cafile env.pathExists with
      | none =>
        ([.urlBranch, .defaultCafileSearch], .error .trustAnchorNotFound)
      | some _ =>
        let b := read_request env.urlBody
        match get_hashsum algorithm_version b with
        | none => ([.urlBranch, .defaultCafileSearch, .networkRequest],
                   .error .unsupportedAlgorithm)
        | some hs => ([.urlBranch, .defaultCafileSearch, .networkRequest],
                      .ok (report hs hashsum))
    else
      let b := read_request env.urlBody
      match get_hashsum algorithm_version b with
      | none => ([.urlBranch, .networkRequest], .error .unsupportedAlgorithm)
      | some hs => ([.urlBranch, .networkRequest], .ok (report hs hashsum))
  else
    match env.fileContent target with
    | none => ([.fileBranch], .error .ioError)
    | some content =>
      let b := read_file content
      match get_hashsum algorithm_version b with
      | none => ([.fileBranch], .error .unsupportedAlgorithm)
      | some hs => ([.fileBranch], .ok (report hs hashsum))

/-! ## Helper lemmas -/

/-- Splitting a list after a clipped `take`: the taken chunk followed by
the rest of the list reassembles the list. -/
theorem take_append_drop_len (k : Nat) (l : List Nat) :
    l.take k ++ l.drop (l.take k).length = l := by
  rcases Nat.le_total k l.length with h | h
  · rw [List.length_take, Nat.min_eq_left h, List.take_append_drop]
  · rw [List.length_take, Nat.min_eq_right h, List.take_of_length_le h,
        List.drop_length, List.append_nil]

/-- The read loop, started at position `pos` with a positive chunk size,
returns exactly the bytes of the source from `pos` on. -/
theorem read_bytes_eq_drop (chunk_size : Nat) (hcs : 0 < chunk_size) :
    ∀ (n : Nat) (data : List Nat) (pos : Nat), data.length - pos ≤ n →
      read_bytes ⟨data, pos⟩ chunk_size = data.drop pos := by
  intro n
  induction n with
  | zero =>
    intro data pos hle
    have hnil : data.drop pos = [] :=
      List.drop_eq_nil_of_le (by omega)
    rw [read_bytes]
    simp [readChunk, hnil]
  | succ n ih =>
    intro data pos hle
    rw [read_bytes]
    by_cases h : (data.drop pos).take chunk_size = []
    · have hnil : data.drop pos = [] := by
        rcases List.take_eq_nil_iff.mp h with h0 | h0
        · exact (Nat.lt_irrefl 0 (h0 ▸ hcs)).elim
        · exact h0
      simp [readChunk, h, hnil]
    · have hlt : pos < data.length := by
        by_contra hge
        exact h (by simp [List.drop_eq_nil_of_le (Nat.le_of_not_lt hge)])
      have hpos : 0 < ((data.drop pos).take chunk_size).length :=
        List.length_pos.mpr h
      rw [dif_neg (by simpa [readChunk] using h)]
      simp only [readChunk]
      rw [ih data (pos + ((data.drop pos).take chunk_size).length) (by omega)]
      rw [← List.drop_drop, take_append_drop_len]

/-- Lemma: `read_file` reproduces the file content byte for byte. -/
theorem read_file_id (content : List Nat) : read_file content = content := by
  simpa using read_bytes_eq_drop MEBIBYTE (by decide) content.length content 0
    (by omega)

/-- Lemma: `read_request` reproduces the response body byte for byte. -/
theorem read_request_id (content : List Nat) :
    read_request content = content := by
  simpa using read_bytes_eq_drop (4 * KIBIBYTE) (by decide) content.length
    content 0 (by omega)

/-- The cafile-search loop is `List.find?`: it returns the first listed
path that exists. -/
theorem findCafile_eq_find (pathExists : String → Bool) (l : List String) :
    findCafile pathExists l = l.find? pathExists := by
  induction l with
  | nil => rfl
  | cons p rest ih =>
    by_cases h : pathExists p <;> simp [findCafile, List.find?, h, ih]

/-- The cafile-search loop fails when no listed path exists. -/
theorem findCafile_none (pathExists : String → Bool) (l : List String)
    (h : ∀ p ∈ l, pathExists p = false) : findCafile pathExists l = none := by
  induction l with
  | nil => rfl
  | cons p rest ih =>
    simp [findCafile, h p (by simp)]
    exact ih fun q hq => h q (by simp [hq])

/-- A target whose characters begin with `https` also begins with
`http`. -/
theorem pyStartsWith_https_http (t : String)
    (h : pyStartsWith t "https" = true) : pyStartsWith t "http" = true := by
  obtain ⟨l⟩ := t
  have h5 : ("https".data : List Char) = ['h', 't', 't', 'p', 's'] := rfl
  have h4 : ("http".data : List Char) = ['h', 't', 't', 'p'] := rfl
  simp only [pyStartsWith, h5, h4] at h ⊢
  rcases l with _ | ⟨a, _ | ⟨b, _ | ⟨c, _ | ⟨d, l⟩⟩⟩⟩ <;>
    simp_all [List.isPrefixOf, Bool.and_eq_true] <;> tauto

/-- The sixteen lowercase hex characters. -/
def hexAlphabet : List Char := "0123456789abcdef".data

/-- Lowercase-hex check: every character of the string is one of
`0123456789abcdef`. -/
def isLowerHex (s : String) : Bool :=
  s.data.all fun c => hexAlphabet.contains c

/-- Big-endian serialization on `n` bytes has length `n`. -/
theorem toBytesBE_length (n x : Nat) : (toBytesBE n x).length = n := by
  induction n generalizing x with
  | zero => rfl
  | succ n ih => simp [toBytesBE, ih]

/-- Every byte of a big-endian serialization is below 256. -/
theorem toBytesBE_lt (n x : Nat) : ∀ b ∈ toBytesBE n x, b < 256 := by
  induction n generalizing x with
  | zero => simp [toBytesBE]
  | succ n ih =>
    intro b hb
    rcases List.mem_append.mp hb with h | h
    · exact ih _ b h
    · simp only [List.mem_singleton] at h
      omega

/-- The hex rendering of `n` bytes has `2 * n` characters. -/
theorem hexdigest_length (bytes : List Nat) :
    (hexdigest bytes).length = 2 * bytes.length := by
  induction bytes with
  | nil => rfl
  | cons b bs ih =>
    simp only [hexdigest, String.length, List.map_cons, List.flatten_cons,
      hexByte] at ih ⊢
    simp only [List.length_append, List.length_cons, List.length_nil,
      List.length_map] at ih ⊢
    omega

/-- A nibble renders to a lowercase hex character. -/
theorem hexChar_mem (m : Nat) (h : m < 16) :
    hexAlphabet.contains (hexChar m) = true := by
  interval_cases m <;> decide

/-- The hex rendering of bytes below 256 is a lowercase hex string. -/
theorem hexdigest_isLowerHex (bytes : List Nat)
    (h : ∀ b ∈ bytes, b < 256) : isLowerHex (hexdigest bytes) = true := by
  simp only [isLowerHex, hexdigest, List.all_eq_true]
  intro c hc
  simp only [List.mem_flatten, List.mem_map] at hc
  obtain ⟨l, ⟨b, hb, hl⟩, hcl⟩ := hc
  subst hl
  have hb256 := h b hb
  simp only [hexByte, List.mem_cons, List.not_mem_nil, or_false] at hcl
  rcases hcl with h1 | h1 <;> subst h1 <;> apply hexChar_mem <;> omega

/-- SHA-1 digests have 20 bytes, each below 256. -/
theorem sha1Bytes_shape (msg : List Nat) :
    (sha1Bytes msg).length = 20 ∧ ∀ b ∈ sha1Bytes msg, b < 256 := by
  constructor
  · simp [sha1Bytes, toBytesBE_length]
  · intro b hb
    simp only [sha1Bytes, List.mem_append] at hb
    rcases hb with ((((h | h) | h) | h) | h) <;> exact toBytesBE_lt _ _ b h

/-- SHA-256 digests have 32 bytes, each below 256. -/
theorem sha256Bytes_shape (msg : List Nat) :
    (sha256Bytes msg).length = 32 ∧ ∀ b ∈ sha256Bytes msg, b < 256 := by
  constructor
  · simp [sha256Bytes, toBytesBE_length]
  · intro b hb
    simp only [sha256Bytes, List.mem_append] at hb
    rcases hb with (((((((h | h) | h) | h) | h) | h) | h) | h) <;>
      exact toBytesBE_lt _ _ b h

/-- SHA-512 digests have 64 bytes, each below 256. -/
theorem sha512Bytes_shape (msg : List Nat) :
    (sha512Bytes msg).length = 64 ∧ ∀ b ∈ sha512Bytes msg, b < 256 := by
  constructor
  · simp [sha512Bytes, toBytesBE_length]
  · intro b hb
    simp only [sha512Bytes, List.mem_append] at hb
    rcases hb with (((((((h | h) | h) | h) | h) | h) | h) | h) <;>
      exact toBytesBE_lt _ _ b h

/-- Truthiness: `pyFalsy` holds of `None`. -/
theorem pyFalsy_none : pyFalsy none = true := rfl

/-- Truthiness: `pyFalsy` holds of the empty string. -/
theorem pyFalsy_some_empty : pyFalsy (some "") = true := rfl

/-- The file branch of `main` with no expected digest: one event, the
literal message around the digest (note the program's spelling `hassum`),
return code 0. -/
theorem mainModel_file_msg (target : String) (alg : Int) (ua : String)
    (cafile : Option String) (env : Env) (content : List Nat) (s : String)
    (hT : pyStartsWith target "http" = false)
    (hF : env.fileContent target = some content)
    (hH : get_hashsum alg content = some s) :
    mainModel target alg ua cafile none env =
      ([Event.fileBranch],
       .ok (["Target hassum is " ++ "'" ++ s ++ "'"], 0)) := by
  simp only [mainModel, hT, Bool.false_eq_true, if_false, hF, read_file_id,
    hH, report, pyReprPlain, String.append_assoc]

/-- Environment with no existing paths, no readable files and an empty
response body, for concrete instantiations. -/
def envNone : Env := ⟨fun _ => false, [], fun _ => none⟩

/-- Environment with one local file `f` containing `b"abc"`. -/
def envAbc : Env :=
  ⟨fun _ => false, [], fun p => if p = "f" then some [97, 98, 99] else none⟩

/-! ## Claims -/

/-- C1: for every computed digest string `X`, the reporting tail of `main`
with no expected digest returns exit code 0; with expected digest equal to
`X` (exact, case-sensitive string equality) it prints `True` and returns
exit code 0; with any expected digest `Y` different from `X` it prints
`False` and returns exit code 1. -/
theorem report_exit_codes (X Y : String) (h : Y ≠ X) :
    (report X none).2 = 0 ∧ report X (some X) = (["True"], 0) ∧
    report X (some Y) = (["False"], 1) := by
  refine ⟨rfl, ?_, ?_⟩
  · simp [report]
  · simp only [report]
    rw [if_neg fun hXY => h hXY.symm]

/-- C1 witness at `X = "a"`, `Y = "b"`. -/
theorem report_exit_codes_w :
    (report "a" none).2 = 0 ∧ report "a" (some "a") = (["True"], 0) ∧
    report "a" (some "b") = (["False"], 1) :=
  report_exit_codes "a" "b" (by decide)

set_option maxRecDepth 100000 in
/-- C2 counterexample: hashing `b"abc"` with algorithm identifier 1 does
not produce the spec's 39-character string
`a9993e364706816aba3e25717850c26c9cd0d89` (the spec dropped the final
`d` of the SHA-1 digest). -/
theorem sha1_abc_claimed_digest_false :
    get_hashsum 1 [97, 98, 99] ≠
      some "a9993e364706816aba3e25717850c26c9cd0d89" := by
  decide

set_option maxRecDepth 100000 in
/-- C2 (amended): hashing the byte sequence `b"abc"` with algorithm
identifier 1 (SHA-1) produces the digest string
`a9993e364706816aba3e25717850c26c9cd0d89d`. -/
theorem sha1_abc_digest :
    get_hashsum 1 [97, 98, 99] =
      some "a9993e364706816aba3e25717850c26c9cd0d89d" := by
  decide

/-- C4: for every local file content `C`, including the empty one, reading
the file through the 1-MiB chunk loop returns exactly `C`. -/
theorem read_file_roundtrip (C : List Nat) : read_file C = C :=
  read_file_id C

/-- C7: an algorithm identifier outside the SHA family sizes (such as 42)
makes the hash-function lookup fail and `get_hashsum` never returns a
digest string; the identifiers with a hash function are exactly 1, 224,
256, 384 and 512. -/
theorem get_hashsum_unsupported (v : Int) (b : List Nat)
    (h : v ∉ ([1, 224, 256, 384, 512] : List Int)) :
    get_alogirthm_function v = none ∧ get_hashsum v b = none ∧
    ∀ w ∈ ([1, 224, 256, 384, 512] : List Int),
      (get_alogirthm_function w).isSome = true := by
  simp only [List.mem_cons, List.not_mem_nil, or_false, not_or] at h
  obtain ⟨h1, h224, h256, h384, h512⟩ := h
  have hf : get_alogirthm_function v = none := by
    simp [get_alogirthm_function, h1, h224, h256, h384, h512]
  exact ⟨hf, by simp [get_hashsum, hf], by decide⟩

/-- C7 witness at `v = 42`, `b = []`. -/
theorem get_hashsum_unsupported_w :
    get_alogirthm_function 42 = none ∧ get_hashsum 42 [] = none ∧
    ∀ w ∈ ([1, 224, 256, 384, 512] : List Int),
      (get_alogirthm_function w).isSome = true :=
  get_hashsum_unsupported 42 [] (by decide)

/-- C8: for every byte sequence `b`, the digest `get_hashsum` returns is a
lowercase hexadecimal string whose length matches the algorithm family: 40
characters for identifier 1, 64 for 256, 128 for 512. -/
theorem get_hashsum_hex_shape (b : List Nat) :
    (∀ s, get_hashsum 1 b = some s →
      s.length = 40 ∧ isLowerHex s = true) ∧
    (∀ s, get_hashsum 256 b = some s →
      s.length = 64 ∧ isLowerHex s = true) ∧
    (∀ s, get_hashsum 512 b = some s →
      s.length = 128 ∧ isLowerHex s = true) := by
  refine ⟨fun s hs => ?_, fun s hs => ?_, fun s hs => ?_⟩
  · have : s = hexdigest (sha1Bytes b) := by
      simpa [get_hashsum, get_alogirthm_function] using hs.symm
    subst this
    obtain ⟨hlen, hlt⟩ := sha1Bytes_shape b
    exact ⟨by rw [hexdigest_length, hlen], hexdigest_isLowerHex _ hlt⟩
  · have : s = hexdigest (sha256Bytes b) := by
      simpa [get_hashsum, get_alogirthm_function] using hs.symm
    subst this
    obtain ⟨hlen, hlt⟩ := sha256Bytes_shape b
    exact ⟨by rw [hexdigest_length, hlen], hexdigest_isLowerHex _ hlt⟩
  · have : s = hexdigest (sha512Bytes b) := by
      simpa [get_hashsum, get_alogirthm_function] using hs.symm
    subst this
    obtain ⟨hlen, hlt⟩ := sha512Bytes_shape b
    exact ⟨by rw [hexdigest_length, hlen], hexdigest_isLowerHex _ hlt⟩

/-- C8 witness at `b = []` for the SHA-1 part. -/
theorem get_hashsum_hex_shape_w :
    (hexdigest (sha1Bytes [])).length = 40 ∧
    isLowerHex (hexdigest (sha1Bytes [])) = true :=
  (get_hashsum_hex_shape []).1 (hexdigest (sha1Bytes [])) rfl

set_option maxRecDepth 100000 in
/-- C3 counterexample: on a local file containing `b"abc"`, algorithm 1
and no expected digest, the program does not print
`Target hashsum is '<hex>'`: line 120 of the source spells the word
`hassum`. -/
theorem main_message_claim_false :
    mainModel "f" 1 DEFAULT_USER_AGENT none none envAbc ≠
      ([Event.fileBranch],
       .ok (["Target hashsum is 'a9993e364706816aba3e25717850c26c9cd0d89d'"],
            0)) := by
  rw [mainModel_file_msg "f" 1 DEFAULT_USER_AGENT none envAbc [97, 98, 99]
    "a9993e364706816aba3e25717850c26c9cd0d89d" (by decide) (by decide)
    (by decide)]
  intro h
  have h1 := congrArg (fun r => r.2) h
  simp only [Except.ok.injEq, Prod.mk.injEq] at h1
  exact absurd h1.1 (by decide)

/-- C3 (amended): when no expected digest is supplied, the program writes
exactly the message `Target hassum is '<hex>'` (so spelled in the source)
with `<hex>` the computed digest, and exits with code 0. -/
theorem main_no_hashsum_message (target : String) (alg : Int) (ua : String)
    (cafile : Option String) (env : Env) (content : List Nat) (s : String)
    (hT : pyStartsWith target "http" = false)
    (hF : env.fileContent target = some content)
    (hH : get_hashsum alg content = some s) :
    mainModel target alg ua cafile none env =
      ([Event.fileBranch],
       .ok (["Target hassum is " ++ "'" ++ s ++ "'"], 0)) :=
  mainModel_file_msg target alg ua cafile env content s hT hF hH

set_option maxRecDepth 100000 in
/-- C3 witness: the local file `f` containing `b"abc"`, algorithm 1. -/
theorem main_no_hashsum_message_w :
    mainModel "f" 1 DEFAULT_USER_AGENT none none envAbc =
      ([Event.fileBranch],
       .ok (["Target hassum is " ++ "'" ++
             "a9993e364706816aba3e25717850c26c9cd0d89d" ++ "'"], 0)) :=
  main_no_hashsum_message "f" 1 DEFAULT_USER_AGENT none envAbc [97, 98, 99]
    "a9993e364706816aba3e25717850c26c9cd0d89d" (by decide) (by decide)
    (by decide)

/-- C5: for every target string, classification is by the leading
characters: a target beginning with `http` runs the URL branch and every
other target runs the local-file branch; exactly one of the two branches
runs per invocation. -/
theorem target_classification (target : String) (alg : Int) (ua : String)
    (cafile hashsum : Option String) (env : Env) :
    (mainModel target alg ua cafile hashsum env).1.filter
        (fun e => e = Event.urlBranch || e = Event.fileBranch) =
      [if pyStartsWith target "http" then Event.urlBranch
       else Event.fileBranch] := by
  by_cases hT : pyStartsWith target "http"
  · simp only [mainModel, hT, eq_self_iff_true, if_true]
    by_cases hC : pyFalsy cafile
    · simp only [hC, eq_self_iff_true, if_true]
      rcases hgd : get_default_cafile env.pathExists with _ | cf <;>
        simp only [hgd]
      · rfl
      · rcases hgh : get_hashsum alg (read_request env.urlBody) with _ | hs <;>
          simp only [hgh] <;> rfl
    · simp only [hC, Bool.false_eq_true, if_false]
      rcases hgh : get_hashsum alg (read_request env.urlBody) with _ | hs <;>
        simp only [hgh] <;> rfl
  · simp only [mainModel, hT, Bool.false_eq_true, if_false]
    rcases hfc : env.fileContent target with _ | content <;> simp only [hfc]
    · rfl
    · rcases hgh : get_hashsum alg (read_file content) with _ | hs <;>
        simp only [hgh] <;> rfl

/-- C6: for an HTTPS target with no trust-anchor file supplied, the
program searches the fixed ordered default path list and uses the first
path that exists; when none of them exists it fails with the
trust-anchor-not-found error and the network request is never issued. -/
theorem https_trust_anchor (target : String) (alg : Int) (ua : String)
    (hashsum : Option String) (env : Env)
    (hT : pyStartsWith target "https" = true) :
    get_default_cafile env.pathExists =
      DEFAULT_CAFILE_PATHS.find? env.pathExists ∧
    ((∀ p ∈ DEFAULT_CAFILE_PATHS, env.pathExists p = false) →
      mainModel target alg ua none hashsum env =
        ([Event.urlBranch, Event.defaultCafileSearch],
         .error MainError.trustAnchorNotFound) ∧
      Event.networkRequest ∉ (mainModel target alg ua none hashsum env).1) := by
  have hT' := pyStartsWith_https_http target hT
  refine ⟨findCafile_eq_find _ _, fun hnone => ?_⟩
  have hgd : get_default_cafile env.pathExists = none :=
    findCafile_none _ _ hnone
  have hm : mainModel target alg ua none hashsum env =
      ([Event.urlBranch, Event.defaultCafileSearch],
       .error MainError.trustAnchorNotFound) := by
    simp only [mainModel, hT', if_true, pyFalsy_none, hgd]
  exact ⟨hm, by rw [hm]; decide⟩

/-- C6 witness: `https://example.com/f` with no cafile in an environment
where no default path exists. -/
theorem https_trust_anchor_w :
    mainModel "https://example.com/f" 1 DEFAULT_USER_AGENT none none
      envNone =
      ([Event.urlBranch, Event.defaultCafileSearch],
       .error MainError.trustAnchorNotFound) :=
  ((https_trust_anchor "https://example.com/f" 1 DEFAULT_USER_AGENT none
    envNone (by decide)).2 (by decide)).1

/-- C9: a caller-supplied trust-anchor path equal to the empty string is
treated as if no trust-anchor file was supplied: the whole run is the one
of a missing cafile, for a URL target the default search runs, and when no
default path exists the run fails with trust-anchor-not-found even though
a cafile value was given. -/
theorem empty_cafile_like_none (target : String) (alg : Int) (ua : String)
    (hashsum : Option String) (env : Env)
    (hT : pyStartsWith target "http" = true) :
    mainModel target alg ua (some "") hashsum env =
      mainModel target alg ua none hashsum env ∧
    Event.defaultCafileSearch ∈
      (mainModel target alg ua (some "") hashsum env).1 ∧
    ((∀ p ∈ DEFAULT_CAFILE_PATHS, env.pathExists p = false) →
      mainModel target alg ua (some "") hashsum env =
        ([Event.urlBranch, Event.defaultCafileSearch],
         .error MainError.trustAnchorNotFound)) := by
  refine ⟨by simp only [mainModel, pyFalsy_some_empty, pyFalsy_none], ?_, ?_⟩
  · simp only [mainModel, hT, eq_self_iff_true, if_true, pyFalsy_some_empty]
    rcases hgd : get_default_cafile env.pathExists with _ | cf <;>
      simp only [hgd]
    · decide
    · rcases hgh : get_hashsum alg (read_request env.urlBody) with _ | hs <;>
        simp only [hgh] <;> decide
  · intro hnone
    have hgd : get_default_cafile env.pathExists = none :=
      findCafile_none _ _ hnone
    simp only [mainModel, hT, if_true, pyFalsy_some_empty, hgd]

/-- C9 witness: `http://example.com/f` with `--cafile ""` in an
environment where no default path exists. -/
theorem empty_cafile_like_none_w :
    mainModel "http://example.com/f" 1 DEFAULT_USER_AGENT (some "") none
      envNone =
      ([Event.urlBranch, Event.defaultCafileSearch],
       .error MainError.trustAnchorNotFound) :=
  (empty_cafile_like_none "http://example.com/f" 1 DEFAULT_USER_AGENT none
    envNone (by decide)).2.2 (by decide)

/-- C10: for a plain `http://` (non-HTTPS) URL target with no trust-anchor
file supplied, the default certificate-bundle lookup still runs, so when
none of the default paths exists the run fails with trust-anchor-not-found
and the network request is never issued. -/
theorem http_plain_trust_anchor (target : String) (alg : Int) (ua : String)
    (hashsum : Option String) (env : Env)
    (hT : pyStartsWith target "http" = true)
    (hTs : pyStartsWith target "https" = false)
    (hnone : ∀ p ∈ DEFAULT_CAFILE_PATHS, env.pathExists p = false) :
    mainModel target alg ua none hashsum env =
      ([Event.urlBranch, Event.defaultCafileSearch],
       .error MainError.trustAnchorNotFound) ∧
    Event.networkRequest ∉ (mainModel target alg ua none hashsum env).1 := by
  have hgd : get_default_cafile env.pathExists = none :=
    findCafile_none _ _ hnone
  have hm : mainModel target alg ua none hashsum env =
      ([Event.urlBranch, Event.defaultCafileSearch],
       .error MainError.trustAnchorNotFound) := by
    simp only [mainModel, hT, if_true, pyFalsy_none, hgd]
  exact ⟨hm, by rw [hm]; decide⟩

/-- C10 witness: `http://example.com/f` with no cafile in an environment
where no default path exists. -/
theorem http_plain_trust_anchor_w :
    mainModel "http://example.com/f" 1 DEFAULT_USER_AGENT none none
      envNone =
      ([Event.urlBranch, Event.defaultCafileSearch],
       .error MainError.trustAnchorNotFound) ∧
    Event.networkRequest ∉
      (mainModel "http://example.com/f" 1 DEFAULT_USER_AGENT none none
        envNone).1 :=
  http_plain_trust_anchor "http://example.com/f" 1 DEFAULT_USER_AGENT none
    envNone (by decide) (by decide) (by decide)

end Checksum
